import Mathlib

/-!
# Verification development for the hclog context resolution and dispatch engine

Shallow embedding of the core data model and operations of the `hclog`
crate (`src/hclog/src/{level,options,facades,submodule,logmod,context,task,api}.rs`)
together with theorems settling the specification claims.

Conventions of the embedding:
* Rust enums become Lean inductives; derived `PartialOrd`/`Ord` on a
  fieldless enum compares discriminants, embedded via an explicit `toNat`.
* The `u16` bitmask of `Options` is a `Nat`; Rust's `!x` on `u16` is
  `0xFFFF ^^^ x`.
* Fallible Rust functions return `Except ErrorKind _`; functions that
  mutate through `&mut self` and may fail mid-way return the result
  together with the (possibly partially updated) state.
* Sink I/O is abstracted: forwarding a message to a live facade is
  recorded as an outcome (`LogOutcome`), not performed.
* Environment access (`read_var_from_env`) is a parameter of the
  functions that consult it.
-/

set_option autoImplicit false

namespace Hclog

/-! ## Level (`level.rs`) -/

/-- The `Level` enum of `level.rs`: `Off = 0` up to `Debug10 = 17`. -/
inductive Level where
  | Off | Emerg | Alert | Crit | Error | Warn | Notice | Info
  | Debug1 | Debug2 | Debug3 | Debug4 | Debug5 | Debug6 | Debug7
  | Debug8 | Debug9 | Debug10
  deriving DecidableEq, Repr, Inhabited

/-- Discriminant of the `Level` enum (the value the derived Rust
`PartialOrd`/`Ord` compares). -/
def Level.toNat : Level → Nat
  | .Off => 0 | .Emerg => 1 | .Alert => 2 | .Crit => 3 | .Error => 4
  | .Warn => 5 | .Notice => 6 | .Info => 7 | .Debug1 => 8 | .Debug2 => 9
  | .Debug3 => 10 | .Debug4 => 11 | .Debug5 => 12 | .Debug6 => 13
  | .Debug7 => 14 | .Debug8 => 15 | .Debug9 => 16 | .Debug10 => 17

instance : LE Level := ⟨fun a b => a.toNat ≤ b.toNat⟩

instance Level.decLe (a b : Level) : Decidable (a ≤ b) :=
  inferInstanceAs (Decidable (a.toNat ≤ b.toNat))

/-- `Level::is_enabled(&self, other) = other <= *self` (`level.rs:143`). -/
def Level.is_enabled (self other : Level) : Bool := decide (other ≤ self)

/-- `Level::default()` is `Off` (the `#[default]` variant). -/
def Level.default : Level := .Off

/-! ## Options (`options.rs`) -/

/-- The `Options(u16)` bitmask newtype of `options.rs`. -/
structure Options where
  val : Nat
  deriving DecidableEq, Repr, Inhabited

def NONE : Options := ⟨0x0000⟩
def LINEBUFFERED : Options := ⟨0x0001⟩
def TIMESTAMP : Options := ⟨0x0002⟩
def DATESTAMP : Options := ⟨0x0004⟩
def NANOSEC : Options := ⟨0x0008⟩
def BINNAME : Options := ⟨0x0010⟩
def PID : Options := ⟨0x0020⟩
def TID : Options := ⟨0x0040⟩
def MODULE : Options := ⟨0x0080⟩
def SEVERITY : Options := ⟨0x0100⟩
def SCOPE : Options := ⟨0x0200⟩
def FUNC : Options := ⟨0x0400⟩
def FILE : Options := ⟨0x0800⟩
def LINE : Options := ⟨0x1000⟩
def LOGCOMPAT : Options := ⟨0x2000⟩
def EXACT_LVL_MATCH : Options := ⟨0x4000⟩

/-- `impl Add for Options`: bitwise union. -/
def Options.add (a b : Options) : Options := ⟨a.val ||| b.val⟩

/-- `impl Sub for Options`: `self.0 & !rhs.0` on `u16`. -/
def Options.sub (a b : Options) : Options := ⟨a.val &&& (0xFFFF ^^^ b.val)⟩

instance : Add Options := ⟨Options.add⟩
instance : Sub Options := ⟨Options.sub⟩

/-- `Options::has`: `self.0 & flags.0 == flags.0`. -/
def Options.has (a flags : Options) : Bool := (a.val &&& flags.val) == flags.val

/-- `Options::set`: `*self += flags`. -/
def Options.set (a flags : Options) : Options := a + flags

/-- `Options::unset`: `*self -= flags`. -/
def Options.unset (a flags : Options) : Options := a - flags

/-- `Options::default()` (`options.rs:160`): every flag except `SCOPE`
and `EXACT_LVL_MATCH`. -/
def Options.default : Options :=
  LINEBUFFERED + TIMESTAMP + DATESTAMP + NANOSEC + BINNAME +
  PID + TID + MODULE + SEVERITY + FUNC + FILE + LINE + LOGCOMPAT

/-- `Options::for_syslog`: `*self -= TIMESTAMP + DATESTAMP + NANOSEC + BINNAME + PID + SEVERITY`. -/
def Options.for_syslog (o : Options) : Options :=
  o - (TIMESTAMP + DATESTAMP + NANOSEC + BINNAME + PID + SEVERITY)

/-! ## Errors (`task.rs`, `error.rs`) -/

/-- `TaskLocalErr` from `task.rs`. -/
inductive TaskLocalErr where
  | BorrowError
  | AccessError
  deriving DecidableEq, Repr

/-- `ErrorKind` from `error.rs` (the `IoError` payload is reduced to a
plain marker since `std::io::ErrorKind` is opaque to the claims). -/
inductive ErrorKind where
  | ContextLock
  | ContextInconsistent
  | ScopeNotInitialized
  | KeyNotInitialized
  | ParseEnv
  | ParseArg
  | EnvType
  | UnknownLogLevel
  | WriteFailed
  | InvalFmtString
  | LogCompatInitialized
  | TaskLocal (e : TaskLocalErr)
  | IoError
  deriving DecidableEq, Repr

/-- `impl From<TaskLocalErr> for ErrorKind`. -/
def ErrorKind.fromTaskLocal (e : TaskLocalErr) : ErrorKind := .TaskLocal e

/-! ## Facades (`facades.rs`) -/

/-- `FacadeVariant` from `facades.rs`. -/
inductive FacadeVariant where
  | None
  | StdOut
  | StdErr
  | Syslog (facility : String)
  | File (path : String) (truncate : Bool)
  deriving DecidableEq, Repr, Inhabited

/-- A live facade as produced by `FacadeScope::new` (`StdOut::init`,
`StdErr::init`, `Syslog::init`, `File::init`); only its configuration and
the `is_syslog` capability are observable here. -/
inductive Facade where
  | StdOut
  | StdErr
  | Syslog (facility : String)
  | File (path : String) (truncate : Bool)
  deriving DecidableEq, Repr

/-- `LogFacade::is_syslog`: `true` only for the `Syslog` facade
(`facades.rs:200`), `false` by the default impl for every other one. -/
def Facade.is_syslog : Facade → Bool
  | .Syslog _ => true
  | _ => false

/-- `FacadeScope` from `facades.rs`. -/
inductive FacadeScope where
  | None
  | Global (f : Facade)
  | Local (f : Facade)
  deriving DecidableEq, Repr

/-- `FacadeScope::new` (`facades.rs:109`). -/
def FacadeScope.new : FacadeVariant → FacadeScope
  | .None => .None
  | .StdOut => .Global .StdOut
  | .StdErr => .Global .StdErr
  | .Syslog s => .Global (.Syslog s)
  | .File p t => .Global (.File p t)

/-- `FacadeScope::inner` (`facades.rs:124`). -/
def FacadeScope.inner : FacadeScope → Option Facade
  | .None => none
  | .Global f => some f
  | .Local f => some f

/-! ## Environment access (`util.rs`, `options.rs`)

`read_var_from_env::<u16>` is abstracted as a function from the variable
name to `Except ErrorKind (Option Nat)`: `Ok(None)` when the variable is
absent, `Ok(Some v)` when it parses, `Err(EnvType)` when it does not. -/

/-- Abstract process environment as consulted by `opt_from_env`. -/
def OptEnv : Type := String → Except ErrorKind (Option Nat)

/-- `Options::opt_from_env` (`options.rs:287`): reads `HCLOG_OPT_<key>`;
`Some(0)` unsets the flag, `Some(1)` sets it, anything else is a no-op,
a read error is propagated leaving the options untouched. -/
def Options.opt_from_env (env : OptEnv) (key : String) (var : Options)
    (o : Options) : Except ErrorKind Options :=
  match env ("HCLOG_OPT_" ++ key) with
  | .error e => .error e
  | .ok (some 0) => .ok (o - var)
  | .ok (some 1) => .ok (o + var)
  | .ok _ => .ok o

/-- The per-flag environment keys in the order `parse_from_env` visits
them (`options.rs:301`). -/
def Options.envFlagList : List (String × Options) :=
  [("LINEBUFFERED", LINEBUFFERED), ("TIMESTAMP", TIMESTAMP),
   ("DATESTAMP", DATESTAMP), ("NANOSEC", NANOSEC), ("BINNAME", BINNAME),
   ("PID", PID), ("TID", TID), ("MODULE", MODULE), ("SEVERITY", SEVERITY),
   ("SCOPE", SCOPE), ("FUNC", FUNC), ("FILE", FILE), ("LINE", LINE),
   ("LOG_COMPAT", LOGCOMPAT), ("EXACT_LVL_MATCH", EXACT_LVL_MATCH)]

/-- Sequential application of `opt_from_env` over a flag list; on the
first error the options accumulated so far are kept (the Rust function
mutates `&mut self` and returns early). -/
def Options.parseFromEnvGo (env : OptEnv) :
    List (String × Options) → Options → Except ErrorKind Unit × Options
  | [], o => (.ok (), o)
  | (k, f) :: rest, o =>
    match Options.opt_from_env env k f o with
    | .error e => (.error e, o)
    | .ok o' => Options.parseFromEnvGo env rest o'

/-- `Options::parse_from_env` (`options.rs:301`). -/
def Options.parse_from_env (env : OptEnv) (o : Options) :
    Except ErrorKind Unit × Options :=
  Options.parseFromEnvGo env Options.envFlagList o

/-- `Options::reset` (`options.rs:277`): `*self = Self::default()` then
`parse_from_env`; on a parse error the partially re-parsed default is
what remains in `*self`. -/
def Options.reset (env : OptEnv) (_o : Options) :
    Except ErrorKind Unit × Options :=
  Options.parse_from_env env Options.default

/-! ## Submodule (`submodule.rs`) -/

/-- `Submodule` from `submodule.rs`. -/
structure Submodule where
  key : Nat
  name : String
  options : Options
  initialized : Bool
  logsev : Level
  logdest : FacadeScope
  deriving DecidableEq, Repr

/-- `Submodule::default()` (`submodule.rs:26`): key and name of
`InternalLogKeys::Internal` (`Internal as usize = 0`, display `"hclog"`),
default options, `initialized = false`, `Level::default() = Off`,
`FacadeScope::None`. -/
def Submodule.default : Submodule :=
  { key := 0
    name := "hclog"
    options := Options.default
    initialized := false
    logsev := Level.default
    logdest := FacadeScope.None }

/-- `Submodule::set_options_internal` (`submodule.rs:51`): if the sink is
a syslog facade, drop the fields the syslog daemon supplies itself. -/
def Submodule.set_options_internal (m : Submodule) : Submodule :=
  match m.logdest.inner with
  | some d => if d.is_syslog then { m with options := m.options.for_syslog } else m
  | none => m

/-- `Submodule::new` (`submodule.rs:39`); the `impl LogKey` argument is
reduced to its `log_key()` and `to_string()` observations. -/
def Submodule.new (key : Nat) (name : String) (logsev : Level)
    (f : FacadeVariant) (options : Options) : Submodule :=
  Submodule.set_options_internal
    { key := key
      name := name
      options := options
      initialized := true
      logsev := logsev
      logdest := FacadeScope.new f }

/-- `Submodule::set_logsev`. -/
def Submodule.set_logsev (m : Submodule) (logsev : Level) : Submodule :=
  { m with logsev := logsev }

/-- `Submodule::set_logdest`. -/
def Submodule.set_logdest (m : Submodule) (variant : FacadeVariant) : Submodule :=
  { m with logdest := FacadeScope.new variant }

/-- `Submodule::set_options` (`submodule.rs:82`). -/
def Submodule.set_options (m : Submodule) (flags : Options) : Submodule :=
  Submodule.set_options_internal { m with options := m.options.set flags }

/-- `Submodule::unset_options` (`submodule.rs:86`). -/
def Submodule.unset_options (m : Submodule) (flags : Options) : Submodule :=
  Submodule.set_options_internal { m with options := m.options.unset flags }

/-- `Submodule::reset_options` (`submodule.rs:78`): `self.options.reset()?`
then `set_options_internal`; when the reset fails mid-way the partially
reset options stay in place and the syslog suppression is not re-applied. -/
def Submodule.reset_options (env : OptEnv) (m : Submodule) :
    Except ErrorKind Unit × Submodule :=
  match Options.reset env m.options with
  | (.error e, o') => (.error e, { m with options := o' })
  | (.ok (), o') => (.ok (), Submodule.set_options_internal { m with options := o' })

/-- `Submodule::will_log` (`submodule.rs:90`). -/
def Submodule.will_log (m : Submodule) (logsev : Level) : Bool :=
  if m.options.has EXACT_LVL_MATCH then
    m.logsev == logsev
  else
    m.logsev.is_enabled logsev

/-- Whether the submodule's current sink is a syslog facade, the
condition tested by `set_options_internal`. -/
def Submodule.isSyslogDest (m : Submodule) : Bool :=
  match m.logdest.inner with
  | some d => d.is_syslog
  | none => false

/-! ## LogScope (`logmod.rs`) -/

/-- `ScopeKey` from `logmod.rs` (`MAX` is only the array size, 3). -/
inductive ScopeKey where
  | Application
  | CLog
  | Lib
  deriving DecidableEq, Repr, Inhabited

/-- Discriminant of `ScopeKey` (`Application = 0`, `CLog = 1`, `Lib = 2`). -/
def ScopeKey.toNat : ScopeKey → Nat
  | .Application => 0
  | .CLog => 1
  | .Lib => 2

/-- `ScopeKey::MAX as usize`, the length of the `Context` array. -/
def ScopeKey.MAX : Nat := 3

/-- `ScopeEnv` from `logmod.rs`. -/
inductive ScopeEnv where
  | Global
  | Task
  deriving DecidableEq, Repr, Inhabited

/-- The observations of an `impl LogKey` value used by `add_submodule`:
`log_key()`, `to_string()`, `init_level()`, `init_facade()`,
`init_options()` (the latter three default to `None` in the trait). -/
structure KeyDesc where
  log_key : Nat
  name : String
  init_level : Option Level := none
  init_facade : Option FacadeVariant := none
  init_options : Option Options := none
  deriving Repr

/-- `LogScope` from `logmod.rs` (the `Vec<Submodule>` is a `List`). -/
structure LogScope where
  name : String
  lm : ScopeKey
  env : ScopeEnv
  env_ident : Option String
  initialized : Bool
  submodules : List Submodule
  default_options : Options
  default_facade : FacadeVariant
  default_level : Level
  deriving DecidableEq, Repr

/-- `LogScope::default()` (all fields `Default`). -/
def LogScope.default : LogScope :=
  { name := ""
    lm := .Application
    env := .Global
    env_ident := none
    initialized := false
    submodules := []
    default_options := NONE
    default_facade := .None
    default_level := Level.default }

/-- `LogScope::init` (`logmod.rs:106`): environment overrides for the
default level/facade are applied when present (read errors are ignored
there), `parse_from_env` runs over the default options and its error
aborts the initialization. -/
def LogScope.init (envLevel : Option Level) (envFacade : Option FacadeVariant)
    (env : OptEnv) (name : String) (lm : ScopeKey) (level : Level)
    (facade : FacadeVariant) (options : Options) : Except ErrorKind LogScope :=
  let default_level := envLevel.getD level
  let default_facade := envFacade.getD facade
  match Options.parse_from_env env options with
  | (.error e, _) => .error e
  | (.ok (), default_options) =>
    .ok { LogScope.default with
            name := name
            lm := lm
            env := .Global
            initialized := true
            default_options := default_options
            default_facade := default_facade
            default_level := default_level }

/-- `LogScope::to_scoped` (`logmod.rs:131`): a deep copy with
`env = Task` and the identity recorded. -/
def LogScope.to_scoped (s : LogScope) (ident : String) : LogScope :=
  { s with env := .Task, env_ident := some ident }

/-- `LogScope::has_submodule` (`logmod.rs:159`). -/
def LogScope.has_submodule (s : LogScope) (ckey : Nat) : Bool :=
  if !s.initialized || s.submodules.length ≤ ckey then
    false
  else
    match s.submodules.get? ckey with
    | some submod => submod.initialized && submod.key == ckey
    | none => false

/-- `LogScope::add_submodule` (`logmod.rs:170`): an initialized slot is
left untouched (first registration wins); a gap up to the new key is
filled with `Submodule::default()` placeholders before pushing the new
entry. -/
def LogScope.add_submodule (s : LogScope) (k : KeyDesc) :
    Except ErrorKind LogScope :=
  if !s.initialized then
    .error .ScopeNotInitialized
  else
    let level := k.init_level.getD s.default_level
    let facade := k.init_facade.getD s.default_facade
    let opts := k.init_options.getD s.default_options
    match s.submodules.get? k.log_key with
    | some sub =>
      if !sub.initialized then
        .ok { s with submodules :=
                s.submodules.set k.log_key (Submodule.new k.log_key k.name level facade opts) }
      else
        .ok s
    | none =>
      .ok { s with submodules :=
              (s.submodules ++ List.replicate (k.log_key - s.submodules.length) Submodule.default)
                ++ [Submodule.new k.log_key k.name level facade opts] }

/-- `LogScope::get_submodule` (`logmod.rs:208`): `Vec::get`. -/
def LogScope.get_submodule (s : LogScope) (ckey : Nat) : Option Submodule :=
  s.submodules.get? ckey

/-- Index of the first submodule whose name matches, as found by
`LogScope::get_submod_by_name` (`logmod.rs:214`). -/
def LogScope.find_submod_idx (s : LogScope) (key : String) : Option Nat :=
  s.submodules.findIdx? (fun m => m.name == key)

/-! ## Context (`context.rs`) -/

/-- `Context` from `context.rs`: the fixed array
`[LogScope; ScopeKey::MAX as usize]` with `MAX = 3`, indexed by
`ScopeKey as usize`. -/
structure Context where
  application : LogScope
  clog : LogScope
  lib : LogScope
  deriving DecidableEq, Repr

/-- `Context::default()`. -/
def Context.default : Context :=
  { application := LogScope.default
    clog := LogScope.default
    lib := LogScope.default }

/-- `impl Index<ScopeKey> for Context`. -/
def Context.get (c : Context) : ScopeKey → LogScope
  | .Application => c.application
  | .CLog => c.clog
  | .Lib => c.lib

/-- `impl IndexMut<ScopeKey> for Context`, as a functional update. -/
def Context.setScope (c : Context) : ScopeKey → LogScope → Context
  | .Application, s => { c with application := s }
  | .CLog, s => { c with clog := s }
  | .Lib, s => { c with lib := s }

/-- The scopes in array order, as visited by `Context::logmods`. -/
def Context.logmods (c : Context) : List LogScope :=
  [c.application, c.clog, c.lib]

/-- `Context::has` (`context.rs:113`):
`self.log_modules.len() < key as usize || self[key].initialized()`. -/
def Context.has (c : Context) (key : ScopeKey) : Bool :=
  decide (ScopeKey.MAX < key.toNat) || (c.get key).initialized

/-- `Context::init_mod` (`context.rs:116`): create the scope only when
`has` is false, otherwise leave the context untouched. -/
def Context.init_mod (c : Context) (lm : ScopeKey)
    (envLevel : Option Level) (envFacade : Option FacadeVariant) (env : OptEnv)
    (name : String) (level : Level) (facade : FacadeVariant)
    (options : Options) : Except ErrorKind Context :=
  if !(c.has lm) then
    match LogScope.init envLevel envFacade env name lm level facade options with
    | .error e => .error e
    | .ok s => .ok (c.setScope lm s)
  else
    .ok c

/-- `Context::get_mod` (`context.rs:125`). -/
def Context.get_mod (c : Context) (lm : ScopeKey) : Except ErrorKind LogScope :=
  if !(c.has lm) then
    .error .ScopeNotInitialized
  else
    .ok (c.get lm)

/-- Location (scope, index) of the first name match over all initialized
scopes, as found by `Context::get_submod_by_name` (`context.rs:139`). -/
def Context.findSubmodLoc (c : Context) (key : String) : Option (ScopeKey × Nat) :=
  let scan := fun (sk : ScopeKey) =>
    let s := c.get sk
    if !s.initialized then none
    else (s.find_submod_idx key).map (fun i => (sk, i))
  (scan .Application).orElse (fun _ => (scan .CLog).orElse (fun _ => scan .Lib))

/-- Update the submodule at a location in place. -/
def Context.modifySubmod (c : Context) (sk : ScopeKey) (i : Nat)
    (g : Submodule → Submodule) : Context :=
  let s := c.get sk
  match s.submodules.get? i with
  | some m => c.setScope sk { s with submodules := s.submodules.set i (g m) }
  | none => c

/-! ## Resolver (`context.rs`, `task.rs`) -/

/-- `LocalKey::try_with` (`task.rs:152`) on the task-local context slot:
with no value installed (or a destroyed thread-local) the result is
`AccessError`, otherwise the closure's result. -/
def LocalKey.try_with {R : Type} (slot : Option Context)
    (f : Context → R) : Except TaskLocalErr R :=
  match slot with
  | none => .error .AccessError
  | some c => .ok (f c)

/-- `LocalKey::try_with_mut` (`task.rs:137`); the closure mutates the
stored context in place, so the new slot content is returned alongside. -/
def LocalKey.try_with_mut (slot : Option Context)
    (f : Context → Except ErrorKind Unit × Context) :
    Except TaskLocalErr (Except ErrorKind Unit) × Option Context :=
  match slot with
  | none => (.error .AccessError, none)
  | some c =>
    let r := f c
    (.ok r.1, some r.2)

/-- The dispatch of `CTX::call` (`context.rs:58`) over the outcome of the
task-local evaluation and the (lazily taken) global fallback result:
`Err(AccessError) | Ok(Err(KeyNotInitialized))` re-evaluates against the
global registry; any other task-local error converts via
`From<TaskLocalErr>`; any other closure error and any success pass
through. -/
def CTX.callDispatch {R : Type}
    (taskRes : Except TaskLocalErr (Except ErrorKind R))
    (globalRes : Except ErrorKind R) : Except ErrorKind R :=
  match taskRes with
  | .error .AccessError => globalRes
  | .ok (.error .KeyNotInitialized) => globalRes
  | .error e => .error (ErrorKind.fromTaskLocal e)
  | .ok (.error e) => .error e
  | .ok (.ok o) => .ok o

/-- `CTX::call` (`context.rs:58`): task-local lookup first, global read
fallback. `globalLock` stands for `GLOBAL_CONTEXT.read()` (an
`Err ContextLock` models a poisoned lock). -/
def CTX.call {R : Type} (slot : Option Context)
    (globalLock : Except ErrorKind Context)
    (f : Context → Except ErrorKind R) : Except ErrorKind R :=
  CTX.callDispatch (LocalKey.try_with slot f) (globalLock.bind f)

/-- `CTX::call_mut` (`context.rs:72`): same fallback order as `call`,
falling through to the exclusive global write lock. Returns the call
result together with the new task-local slot and global state. -/
def CTX.call_mut (slot : Option Context)
    (globalLock : Except ErrorKind Context)
    (f : Context → Except ErrorKind Unit × Context) :
    Except ErrorKind Unit × Option Context × Except ErrorKind Context :=
  match LocalKey.try_with_mut slot f with
  | (.error .AccessError, slot') =>
    (match globalLock with
     | .error e => (.error e, slot', globalLock)
     | .ok g =>
       let r := f g
       (r.1, slot', .ok r.2))
  | (.ok (.error .KeyNotInitialized), slot') =>
    (match globalLock with
     | .error e => (.error e, slot', globalLock)
     | .ok g =>
       let r := f g
       (r.1, slot', .ok r.2))
  | (.error e, slot') => (.error (ErrorKind.fromTaskLocal e), slot', globalLock)
  | (.ok (.error e), slot') => (.error e, slot', globalLock)
  | (.ok (.ok ()), slot') => (.ok (), slot', globalLock)

/-! ## Level strings (`level.rs`, strum `serialize_all = "lowercase"`) -/

/-- The `Level` variants in `Level::iter()` order. -/
def Level.all : List Level :=
  [.Off, .Emerg, .Alert, .Crit, .Error, .Warn, .Notice, .Info,
   .Debug1, .Debug2, .Debug3, .Debug4, .Debug5, .Debug6, .Debug7,
   .Debug8, .Debug9, .Debug10]

/-- `Level::to_string()` under `#[strum(serialize_all = "lowercase")]`. -/
def Level.toStr : Level → String
  | .Off => "off" | .Emerg => "emerg" | .Alert => "alert" | .Crit => "crit"
  | .Error => "error" | .Warn => "warn" | .Notice => "notice" | .Info => "info"
  | .Debug1 => "debug1" | .Debug2 => "debug2" | .Debug3 => "debug3"
  | .Debug4 => "debug4" | .Debug5 => "debug5" | .Debug6 => "debug6"
  | .Debug7 => "debug7" | .Debug8 => "debug8" | .Debug9 => "debug9"
  | .Debug10 => "debug10"

/-- `str::eq_ignore_ascii_case` (the strings involved are ASCII;
spelled out over the character list so it evaluates by reduction). -/
def eqIgnoreAsciiCase (a b : String) : Bool :=
  a.toList.map Char.toLower == b.toList.map Char.toLower

/-- `impl FromStr for Level` (`level.rs:117`): case-insensitive search
over `Level::iter()`, unknown strings fail with `UnknownLogLevel`. -/
def Level.fromStr (s : String) : Except ErrorKind Level :=
  match Level.all.find? (fun r => eqIgnoreAsciiCase r.toStr s) with
  | some l => .ok l
  | none => .error .UnknownLogLevel

/-! ## Runtime level configuration (`api.rs::set_mod_level`) -/

/-- `str::split_once(":")` over the character list: split at the first
`':'`, `none` when there is none. -/
def splitOnceColonChars : List Char → Option (List Char × List Char)
  | [] => none
  | c :: rest =>
    if c = ':' then some ([], rest)
    else (splitOnceColonChars rest).map (fun p => (c :: p.1, p.2))

/-- `str::split_once(":")`. -/
def splitOnceColon (s : String) : Option (String × String) :=
  (splitOnceColonChars s.toList).map (fun p => (p.1.asString, p.2.asString))

/-- `str::split(',')` over the character list: `""` yields `[""]`,
adjacent or trailing separators yield empty segments. -/
def splitOnComma : List Char → List (List Char)
  | [] => [[]]
  | c :: rest =>
    if c = ',' then [] :: splitOnComma rest
    else
      match splitOnComma rest with
      | [] => [[c]]
      | g :: gs => (c :: g) :: gs

/-- `str::split(',')`. -/
def strSplitComma (s : String) : List String :=
  (splitOnComma s.toList).map List.asString

/-- The `_all` branch of `set_mod_level`: set the level of every
submodule of every scope (`ctx.logmods_mut()` iterates all three array
entries, initialized or not). -/
def Context.setAllLevels (c : Context) (l : Level) : Context :=
  let upd := fun (s : LogScope) =>
    { s with submodules := s.submodules.map (fun m => m.set_logsev l) }
  { application := upd c.application, clog := upd c.clog, lib := upd c.lib }

/-- One `key:level` segment of `set_mod_level` (`api.rs:343`). -/
def setModLevelArg (c : Context) (arg : String) : Except ErrorKind Context :=
  match splitOnceColon arg with
  | none => .error .ParseArg
  | some (module, level) =>
    if module.isEmpty || level.isEmpty then
      .error .ParseArg
    else
      match Level.fromStr level with
      | .error e => .error e
      | .ok l =>
        if eqIgnoreAsciiCase module "_all" then
          .ok (c.setAllLevels l)
        else
          match c.findSubmodLoc module with
          | none => .error .KeyNotInitialized
          | some (sk, i) => .ok (c.modifySubmod sk i (fun m => m.set_logsev l))

/-- Sequential application of the segments; an error keeps the mutations
already performed under the held write lock. -/
def setModLevelGo : List String → Context → Except ErrorKind Unit × Context
  | [], c => (.ok (), c)
  | a :: rest, c =>
    match setModLevelArg c a with
    | .error e => (.error e, c)
    | .ok c' => setModLevelGo rest c'

/-- `set_mod_level` (`api.rs:343`): arguments are flat-mapped over
`split(',')` and applied strictly in order against the exclusively
locked context. -/
def set_mod_level (args : List String) (c : Context) :
    Except ErrorKind Unit × Context :=
  setModLevelGo (args.flatMap strSplitComma) c

/-! ## Dispatcher (`api.rs::log`, `api.rs::test_log`) -/

/-- Observable outcome of a dispatched call; sink I/O is abstracted as a
successful forward. -/
inductive LogOutcome where
  | forwarded
  | noSink
  | skipped
  deriving DecidableEq, Repr

/-- `Submodule::do_log` (`submodule.rs:97`) with message assembly and
sink I/O abstracted: a `FacadeScope::None` destination returns `Ok(())`
without output, otherwise the message is forwarded to the sink. -/
def Submodule.do_log (m : Submodule) : Except ErrorKind LogOutcome :=
  match m.logdest.inner with
  | none => .ok .noSink
  | some _ => .ok .forwarded

/-- The closure body of `log` (`api.rs:599`), evaluated against a
resolved context. -/
def logInner (c : Context) (sk : ScopeKey) (ckey : Nat) (lvl : Level) :
    Except ErrorKind LogOutcome :=
  match c.get_mod sk with
  | .error e => .error e
  | .ok lm =>
    match lm.get_submodule ckey with
    | some m => if m.will_log lvl then m.do_log else .ok .skipped
    | none => .error .KeyNotInitialized

/-- The closure body of `test_log` (`api.rs:620`), evaluated against a
resolved context. -/
def testLogInner (c : Context) (sk : ScopeKey) (ckey : Nat) (lvl : Level) :
    Except ErrorKind Bool :=
  match c.get_mod sk with
  | .error e => .error e
  | .ok lm =>
    match lm.get_submodule ckey with
    | some m => .ok (m.will_log lvl)
    | none => .ok false

/-- `log` (`api.rs:599`): the closure run through the resolver. -/
def apiLog (slot : Option Context) (globalLock : Except ErrorKind Context)
    (sk : ScopeKey) (ckey : Nat) (lvl : Level) : Except ErrorKind LogOutcome :=
  CTX.call slot globalLock (fun ctx => logInner ctx sk ckey lvl)

/-- `test_log` (`api.rs:620`): the closure run through the resolver. -/
def apiTestLog (slot : Option Context) (globalLock : Except ErrorKind Context)
    (sk : ScopeKey) (ckey : Nat) (lvl : Level) : Except ErrorKind Bool :=
  CTX.call slot globalLock (fun ctx => testLogInner ctx sk ckey lvl)

/-! ## Scoped override lifecycle (`task.rs`)

The thread-local `RefCell<Option<T>>` is modeled as an explicit
`Option T` value threaded through; `mem::swap` becomes the two explicit
exchanges of `scope_inner` and its guard. The wrapped future is a state
`F` with a pure poll semantics `pollF : F → Option T → P F R × Option T`
(it observes and may rewrite the thread-local slot while the override is
visible, e.g. through nested scopes), and a drop semantics
`dropF : F → Option T → Option T`. -/

/-- `std::task::Poll` outcome of the inner future. -/
inductive P (F R : Type) where
  | pending (f : F)
  | ready (r : R)
  deriving Repr

/-- `LocalKey::scope_inner` (`task.rs:81`): swap the future's slot into
the thread-local, run the closure, and on guard drop swap back. Returns
(closure result, new slot field, new thread-local value). -/
def scopeInner {T A : Type} (slot : Option T) (tls : Option T)
    (f : Option T → A × Option T) : A × Option T × Option T :=
  let tls1 := slot
  let slot1 := tls
  let res := f tls1
  (res.1, res.2, slot1)

/-- `TaskLocalFuture` (`task.rs:194`): the armed override value (moved
into `slot`) and the wrapped future. -/
structure TaskLocalFuture (T F : Type) where
  slot : Option T
  future : Option F
  deriving Repr

/-- `LocalKey::scope` (`task.rs:69`): arm the override. Constructing the
future touches neither the thread-local slot nor the wrapped future. -/
def LocalKey.scope {T F : Type} (value : T) (f : F) : TaskLocalFuture T F :=
  { slot := some value, future := some f }

/-- `TaskLocalFuture::poll` (`task.rs:226`): run one poll of the wrapped
future inside `scope_inner`; a ready result clears the `future` field.
Polling after completion panics in the source; here the output is `none`
and the state is unchanged. -/
def TaskLocalFuture.poll {T F R : Type} (tlf : TaskLocalFuture T F)
    (tls : Option T) (pollF : F → Option T → P F R × Option T) :
    Option (P F R) × TaskLocalFuture T F × Option T :=
  match tlf.future with
  | none => (none, tlf, tls)
  | some fut =>
    let res := scopeInner tlf.slot tls (fun tlsIn =>
      match pollF fut tlsIn with
      | (.ready r, tlsOut) => ((P.ready r, (none : Option F)), tlsOut)
      | (.pending f', tlsOut) => ((P.pending f', some f'), tlsOut))
    (some res.1.1, { slot := res.2.1, future := res.1.2 }, res.2.2)

/-- The `PinnedDrop` impl of `TaskLocalFuture` (`task.rs:207`): when the
wrapped future is still present it is dropped inside `scope_inner`
(override visible), otherwise nothing runs beyond the ordinary field
drops. Returns the final thread-local value. -/
def TaskLocalFuture.dropTlf {T F : Type} (tlf : TaskLocalFuture T F)
    (tls : Option T) (dropF : F → Option T → Option T) :
    TaskLocalFuture T F × Option T :=
  match tlf.future with
  | some fut =>
    let res := scopeInner tlf.slot tls (fun tlsIn => ((), dropF fut tlsIn))
    ({ slot := res.2.1, future := none }, res.2.2)
  | none => ({ slot := tlf.slot, future := none }, tls)

/-- Number of `scope_inner` teardown (swap-back) executions a drop of the
future performs: one when the wrapped future is still present
(`mem::needs_drop::<F>() && this.future.is_some()`), zero otherwise. -/
def TaskLocalFuture.teardownsInDrop {T F : Type}
    (tlf : TaskLocalFuture T F) : Nat :=
  match tlf.future with
  | some _ => 1
  | none => 0

/-- Iterated polling of the override future. -/
def pollN {T F R : Type} (pollF : F → Option T → P F R × Option T) :
    Nat → TaskLocalFuture T F × Option T → TaskLocalFuture T F × Option T
  | 0, st => st
  | n + 1, (tlf, tls) =>
    let res := tlf.poll tls pollF
    pollN pollF n (res.2.1, res.2.2)

/-! ## Concrete fixtures used by witnesses -/

/-- An environment with no `HCLOG_*` variable set. -/
def envNone : OptEnv := fun _ => .ok none

/-- An environment whose variables exist but do not parse as `u16`
(`read_var_from_env` fails with `EnvType`). -/
def envErr : OptEnv := fun _ => .error .EnvType

/-- A submodule registered at key 0 with stdout sink. -/
def subFix : Submodule := Submodule.new 0 "k0" .Info .StdOut Options.default

/-- An initialized scope with no submodules yet. -/
def scopeFix : LogScope :=
  { LogScope.default with
      name := "svc"
      lm := .Application
      initialized := true
      default_options := Options.default
      default_facade := .StdOut
      default_level := .Info }

def kd0 : KeyDesc := { log_key := 0, name := "k0" }
def kd3 : KeyDesc := { log_key := 3, name := "k3" }

/-- `scopeFix` after registering key 0. -/
def scopeFix1 : LogScope :=
  match scopeFix.add_submodule kd0 with
  | .ok s => s
  | .error _ => LogScope.default

/-- `scopeFix1` after registering key 3 (gap at 1 and 2). -/
def scopeFix2 : LogScope :=
  match scopeFix1.add_submodule kd3 with
  | .ok s => s
  | .error _ => LogScope.default

/-- A context whose Application scope is initialized with key 0. -/
def ctxFix : Context := Context.default.setScope .Application scopeFix1

/-- The six option flags `Options::for_syslog` removes are all clear. -/
def syslogSuppressed (o : Options) : Bool :=
  !(o.has TIMESTAMP) && !(o.has DATESTAMP) && !(o.has NANOSEC) &&
  !(o.has BINNAME) && !(o.has PID) && !(o.has SEVERITY)

/-- A submodule whose sink is the syslog facade. -/
def subSyslog : Submodule := Submodule.new 1 "sys" .Info (.Syslog "user") Options.default

/-- A context whose Application scope is initialized but holds no
submodules (a task-local view not covering the requested key). -/
def ctxEmptyScope : Context := Context.default.setScope .Application scopeFix

/-- A wrapped future that completes on the first poll with its own state
as result, leaving the thread-local slot as it found it. -/
def pollReady : Nat → Option Nat → P Nat Nat × Option Nat :=
  fun f t => (.ready f, t)

/-- A wrapped future whose drop leaves the thread-local slot unchanged. -/
def dropId : Nat → Option Nat → Option Nat := fun _ t => t

/-- A submodule registered under the display name `A`. -/
def subA : Submodule := Submodule.new 0 "A" .Info .StdOut Options.default

/-- An initialized Application scope holding only key `A`. -/
def scopeA : LogScope := { scopeFix with submodules := [subA] }

/-- A context with just the key `A` registered. -/
def ctxA : Context := Context.default.setScope .Application scopeA

/-- `ctxA` after `set_mod_level(["A:warn", "_all:info"])`. -/
def ctxA1 : Context := (set_mod_level ["A:warn", "_all:info"] ctxA).2

/-- `ctxA1` after `set_mod_level(["A:debug9", "_all:debug10"])`. -/
def ctxA2 : Context := (set_mod_level ["A:debug9", "_all:debug10"] ctxA1).2

/-! # Theorems -/

/-- C2: for every Submodule and requested level X, `will_log X` is
`current_level == X` when `EXACT_LVL_MATCH` is set and `X ≤ current_level`
when it is unset; in particular for `L1 ≤ L2` a submodule at level `L2`
without exact matching reports `will_log L1 = true`. -/
theorem will_log_threshold_semantics (m mL2 : Submodule) (x l1 l2 : Level) :
    (m.options.has EXACT_LVL_MATCH = true → m.will_log x = (m.logsev == x))
    ∧ (m.options.has EXACT_LVL_MATCH = false → m.will_log x = decide (x ≤ m.logsev))
    ∧ (l1 ≤ l2 → mL2.logsev = l2 → mL2.options.has EXACT_LVL_MATCH = false →
        mL2.will_log l1 = true) := by
  refine ⟨fun h => ?_, fun h => ?_, fun h1 h2 h3 => ?_⟩
  · simp [Submodule.will_log, h]
  · simp [Submodule.will_log, h, Level.is_enabled]
  · simp [Submodule.will_log, h3, Level.is_enabled, h2]
    exact h1

/-- Witness for C2 at concrete inputs: exact matching on an
`EXACT_LVL_MATCH` submodule at `Info`, and threshold filtering
(`Warn ≤ Info`) on a default-options submodule at `Info`. -/
theorem will_log_threshold_semantics_witness :
    ({ Submodule.default with options := EXACT_LVL_MATCH, logsev := .Info } :
        Submodule).will_log .Info =
      (({ Submodule.default with options := EXACT_LVL_MATCH, logsev := .Info } :
        Submodule).logsev == .Info)
    ∧ ({ Submodule.default with logsev := .Info } : Submodule).will_log .Warn = true :=
  ⟨(will_log_threshold_semantics
      { Submodule.default with options := EXACT_LVL_MATCH, logsev := .Info }
      Submodule.default .Info .Off .Off).1 (by decide),
   (will_log_threshold_semantics Submodule.default
      { Submodule.default with logsev := .Info } .Off .Warn .Info).2.2
      (by decide) rfl (by decide)⟩

/-- C3 counterexample: removing then re-adding the `SCOPE` flag from the
default options is not the identity, because `SCOPE` is not part of
`Options::default()` — the round trip adds it. -/
theorem options_roundtrip_cex :
    ¬ ((Options.default - SCOPE) + SCOPE = Options.default) := by decide

/-- C3 amended: for each of the 13 flags contained in
`Options::default()` the remove-then-add round trip is the identity; for
the two flags outside the default (`SCOPE`, `EXACT_LVL_MATCH`) it equals
`default + F`, which differs from the default. -/
theorem options_roundtrip_default_flags :
    ([LINEBUFFERED, TIMESTAMP, DATESTAMP, NANOSEC, BINNAME, PID, TID, MODULE,
      SEVERITY, FUNC, FILE, LINE, LOGCOMPAT].all
        (fun f => (Options.default - f) + f == Options.default)) = true
    ∧ (Options.default - SCOPE) + SCOPE = Options.default + SCOPE
    ∧ (Options.default - EXACT_LVL_MATCH) + EXACT_LVL_MATCH
        = Options.default + EXACT_LVL_MATCH
    ∧ ¬ ((Options.default - SCOPE) + SCOPE = Options.default)
    ∧ ¬ ((Options.default - EXACT_LVL_MATCH) + EXACT_LVL_MATCH = Options.default) := by
  decide

/-- C4 counterexample: a submodule whose current level is `Off` (with
`EXACT_LVL_MATCH` unset, the default) reports `will_log(Off) = true`,
because `Level::is_enabled` is the reflexive comparison `Off ≤ Off`. -/
theorem will_log_off_cex :
    ({ Submodule.default with logsev := .Off } : Submodule).will_log .Off = true := by
  decide

/-- C4 amended: a submodule whose current level is `Off` reports
`will_log X = (X == Off)` — false for every requested level except `Off`
itself, which matches, regardless of `EXACT_LVL_MATCH`. -/
theorem will_log_off_amended (m : Submodule) (x : Level)
    (h : m.logsev = .Off) : m.will_log x = decide (x = .Off) := by
  simp only [Submodule.will_log, h]
  cases hE : m.options.has EXACT_LVL_MATCH <;> simp only [if_true, if_false,
    Bool.false_eq_true, if_neg, if_pos, cond_true, cond_false] <;> cases x <;> rfl

/-- Witness for C4 amended: the default submodule (level `Off`) at
requested level `Debug5`. -/
theorem will_log_off_amended_witness :
    Submodule.default.will_log .Debug5 = false := by
  have h := will_log_off_amended Submodule.default .Debug5 rfl
  simpa using h

/-- `for_syslog` is masking with the complement of the six-flag union. -/
lemma Options.for_syslog_val (o : Options) : o.for_syslog = ⟨o.val &&& 0xFEC1⟩ := rfl

/-- `for_syslog` clears all six syslog-supplied fields, whatever was set. -/
lemma syslogSuppressed_for_syslog (o : Options) :
    syslogSuppressed o.for_syslog = true := by
  rw [Options.for_syslog_val]
  show (!((o.val &&& 0xFEC1) &&& 0x2 == 0x2) && !((o.val &&& 0xFEC1) &&& 0x4 == 0x4) &&
       !((o.val &&& 0xFEC1) &&& 0x8 == 0x8) && !((o.val &&& 0xFEC1) &&& 0x10 == 0x10) &&
       !((o.val &&& 0xFEC1) &&& 0x20 == 0x20) &&
       !((o.val &&& 0xFEC1) &&& 0x100 == 0x100)) = true
  simp only [Nat.and_assoc]
  rw [show (0xFEC1 &&& 0x2 : Nat) = 0 from by decide,
      show (0xFEC1 &&& 0x4 : Nat) = 0 from by decide,
      show (0xFEC1 &&& 0x8 : Nat) = 0 from by decide,
      show (0xFEC1 &&& 0x10 : Nat) = 0 from by decide,
      show (0xFEC1 &&& 0x20 : Nat) = 0 from by decide,
      show (0xFEC1 &&& 0x100 : Nat) = 0 from by decide]
  simp only [Nat.and_zero]
  rfl

/-- `set_options_internal` suppresses the six fields whenever the current
sink is a syslog facade. -/
lemma set_options_internal_suppresses (m : Submodule)
    (h : m.isSyslogDest = true) :
    syslogSuppressed m.set_options_internal.options = true := by
  obtain ⟨key, name, options, init, logsev, logdest⟩ := m
  cases logdest with
  | None => simp [Submodule.isSyslogDest, FacadeScope.inner] at h
  | Global f =>
    simp only [Submodule.isSyslogDest, FacadeScope.inner] at h
    simp only [Submodule.set_options_internal, FacadeScope.inner, h, if_true]
    exact syslogSuppressed_for_syslog _
  | Local f =>
    simp only [Submodule.isSyslogDest, FacadeScope.inner] at h
    simp only [Submodule.set_options_internal, FacadeScope.inner, h, if_true]
    exact syslogSuppressed_for_syslog _

/-- C10 amended: after construction, `set_options` and `unset_options`
on a syslog-backed submodule, and after a *successful* `reset_options`,
the `TIMESTAMP`, `DATESTAMP`, `NANOSEC`, `BINNAME`, `PID` and `SEVERITY`
flags are clear. (A `reset_options` that fails re-reading the
environment leaves the partially reset flags in place, see the
counterexample.) -/
theorem syslog_option_suppression (k : Nat) (nm : String) (lvl : Level)
    (f : FacadeVariant) (opts flags : Options) (m m' : Submodule) (env : OptEnv) :
    ((Submodule.new k nm lvl f opts).isSyslogDest = true →
      syslogSuppressed (Submodule.new k nm lvl f opts).options = true)
    ∧ (m.isSyslogDest = true →
      syslogSuppressed (m.set_options flags).options = true)
    ∧ (m.isSyslogDest = true →
      syslogSuppressed (m.unset_options flags).options = true)
    ∧ (m.reset_options env = (.ok (), m') → m.isSyslogDest = true →
      syslogSuppressed m'.options = true) := by
  refine ⟨fun h => ?_, fun h => ?_, fun h => ?_, fun hr h => ?_⟩
  · unfold Submodule.new at h ⊢
    have hk : ∀ mm : Submodule, mm.set_options_internal.logdest = mm.logdest := by
      intro mm
      unfold Submodule.set_options_internal
      cases hi : mm.logdest.inner
      · rfl
      · dsimp only
        split <;> rfl
    have h' : Submodule.isSyslogDest
        { key := k, name := nm, options := opts, initialized := true,
          logsev := lvl, logdest := FacadeScope.new f } = true := by
      unfold Submodule.isSyslogDest at h ⊢
      rw [hk] at h
      exact h
    exact set_options_internal_suppresses _ h'
  · exact set_options_internal_suppresses _ h
  · exact set_options_internal_suppresses _ h
  · unfold Submodule.reset_options at hr
    cases hro : Options.reset env m.options with
    | mk r o' =>
      rw [hro] at hr
      cases r with
      | error e => simp at hr
      | ok u =>
        simp only at hr
        have hm' : m' = Submodule.set_options_internal { m with options := o' } := by
          have := congrArg Prod.snd hr
          simpa using this.symm
        rw [hm']
        exact set_options_internal_suppresses _ h

/-- Witness for C10 amended: setting `TIMESTAMP + PID` on the
syslog-backed fixture leaves the six fields clear, and so does a
successful reset against an empty environment. -/
theorem syslog_option_suppression_witness :
    syslogSuppressed (subSyslog.set_options (TIMESTAMP + PID)).options = true
    ∧ syslogSuppressed (subSyslog.reset_options envNone).2.options = true :=
  ⟨(syslog_option_suppression 0 "" .Off .None NONE (TIMESTAMP + PID)
      subSyslog subSyslog envNone).2.1 (by decide),
   (syslog_option_suppression 0 "" .Off .None NONE NONE
      subSyslog (subSyslog.reset_options envNone).2 envNone).2.2.2 rfl (by decide)⟩

/-- C10 counterexample: a `reset_options` that fails while re-reading the
environment (every `HCLOG_OPT_*` variable unparsable) resets the options
to the process defaults without re-applying the syslog suppression, so a
syslog-backed submodule ends with `TIMESTAMP` set. -/
theorem syslog_option_suppression_cex :
    (subSyslog.reset_options envErr).2.isSyslogDest = true
    ∧ (subSyslog.reset_options envErr).2.options.has TIMESTAMP = true
    ∧ syslogSuppressed (subSyslog.reset_options envErr).2.options = false := by
  decide

/-- `set_options_internal` only touches the options field. -/
lemma set_options_internal_fields (m : Submodule) :
    m.set_options_internal.initialized = m.initialized
    ∧ m.set_options_internal.key = m.key := by
  obtain ⟨key, name, options, init, logsev, logdest⟩ := m
  cases logdest with
  | None => exact ⟨rfl, rfl⟩
  | Global f =>
    simp only [Submodule.set_options_internal, FacadeScope.inner]
    split <;> exact ⟨rfl, rfl⟩
  | Local f =>
    simp only [Submodule.set_options_internal, FacadeScope.inner]
    split <;> exact ⟨rfl, rfl⟩

/-- C5: registering a key beyond the current length of an initialized
scope's submodule vector fills every skipped index with the disabled
`Submodule::default()` placeholder: the final length covers the new key
(indexed access stays in bounds), each intermediate slot holds the
placeholder and reports `has_submodule = false`, and the new key itself
reports `has_submodule = true`. -/
theorem add_submodule_gap_fill (s : LogScope) (k : KeyDesc) (s' : LogScope)
    (hinit : s.initialized = true)
    (hlen : s.submodules.length ≤ k.log_key)
    (hadd : s.add_submodule k = .ok s') :
    s'.submodules.length = k.log_key + 1
    ∧ (∀ j, s.submodules.length ≤ j → j < k.log_key →
        s'.get_submodule j = some Submodule.default ∧ s'.has_submodule j = false)
    ∧ s'.has_submodule k.log_key = true := by
  have hget : s.submodules.get? k.log_key = none := List.get?_eq_none.mpr hlen
  simp only [LogScope.add_submodule, hinit, Bool.not_true, Bool.false_eq_true,
    if_false, hget] at hadd
  set new := Submodule.new k.log_key k.name (k.init_level.getD s.default_level)
    (k.init_facade.getD s.default_facade) (k.init_options.getD s.default_options)
    with hnew
  injection hadd with hX
  subst hX
  have hlen2 : (s.submodules ++ List.replicate (k.log_key - s.submodules.length)
      Submodule.default).length = k.log_key := by
    simp only [List.length_append, List.length_replicate]
    omega
  refine ⟨?_, fun j hj1 hj2 => ?_, ?_⟩
  · simp only [List.length_append, List.length_replicate, List.length_cons,
      List.length_nil]
    omega
  · have hjlt : j < (s.submodules ++ List.replicate
        (k.log_key - s.submodules.length) Submodule.default).length := by
      rw [hlen2]; exact hj2
    have hgj : ((s.submodules ++ List.replicate (k.log_key - s.submodules.length)
        Submodule.default) ++ [new]).get? j = some Submodule.default := by
      rw [List.get?_append hjlt, List.get?_append_right hj1]
      have hsub : j - s.submodules.length < k.log_key - s.submodules.length :=
        Nat.sub_lt_sub_right hj1 hj2
      simp [List.get?_eq_get, List.length_replicate, hsub, List.get_replicate]
    constructor
    · exact hgj
    · simp only [LogScope.has_submodule, hinit, Bool.not_true, List.length_append,
        hlen2, hgj]
      have : ¬ (k.log_key + 1 ≤ j) := by omega
      simp [this, Submodule.default]
  · have hgk : ((s.submodules ++ List.replicate (k.log_key - s.submodules.length)
        Submodule.default) ++ [new]).get? k.log_key = some new := by
      rw [List.get?_append_right hlen2.le, hlen2]
      simp
    simp only [LogScope.has_submodule, hinit, Bool.not_true, List.length_append,
      hlen2, hgk]
    have h1 : ¬ (k.log_key + 1 ≤ k.log_key) := by omega
    have h2 := set_options_internal_fields
      { key := k.log_key, name := k.name,
        options := k.init_options.getD s.default_options, initialized := true,
        logsev := k.init_level.getD s.default_level,
        logdest := FacadeScope.new (k.init_facade.getD s.default_facade) }
    simp [h1, hnew, Submodule.new, h2.1, h2.2]

/-- Witness for C5: registering key 0 then key 3 in the fixture scope;
slots 1 and 2 hold the placeholder and report not-initialized, while
key 3 itself is registered. -/
theorem add_submodule_gap_fill_witness :
    scopeFix2.submodules.length = 4
    ∧ scopeFix2.get_submodule 1 = some Submodule.default
    ∧ scopeFix2.has_submodule 1 = false
    ∧ scopeFix2.get_submodule 2 = some Submodule.default
    ∧ scopeFix2.has_submodule 2 = false
    ∧ scopeFix2.has_submodule 3 = true := by
  have h := add_submodule_gap_fill scopeFix1 kd3 scopeFix2 (by decide) (by decide) rfl
  exact ⟨h.1, (h.2.1 1 (by decide) (by decide)).1, (h.2.1 1 (by decide) (by decide)).2,
    (h.2.1 2 (by decide) (by decide)).1, (h.2.1 2 (by decide) (by decide)).2, h.2.2⟩

/-- C7: re-registration never resets existing state — `init_mod` on a
scope the context already has is a no-op returning the context unchanged,
and `add_submodule` on a slot holding an initialized submodule returns
the scope unchanged with success (first registration wins). -/
theorem first_registration_wins (c : Context) (lm : ScopeKey)
    (envL : Option Level) (envF : Option FacadeVariant) (env : OptEnv)
    (name : String) (level : Level) (facade : FacadeVariant) (options : Options)
    (s : LogScope) (k : KeyDesc) (sub : Submodule) :
    (c.has lm = true →
      c.init_mod lm envL envF env name level facade options = .ok c)
    ∧ (s.initialized = true → s.submodules.get? k.log_key = some sub →
        sub.initialized = true → s.add_submodule k = .ok s) := by
  constructor
  · intro h
    simp [Context.init_mod, h]
  · intro h1 h2 h3
    simp only [List.get?_eq_getElem?] at h2
    simp [LogScope.add_submodule, h1, h2, h3]

/-- Witness for C7: re-initializing the Application scope of the fixture
context and re-registering key 0 of the fixture scope both leave the
state unchanged. -/
theorem first_registration_wins_witness :
    ctxFix.init_mod .Application none none envNone "svc" .Info .StdOut
      Options.default = .ok ctxFix
    ∧ scopeFix1.add_submodule { log_key := 0, name := "dup" } = .ok scopeFix1 :=
  ⟨(first_registration_wins ctxFix .Application none none envNone "svc" .Info
      .StdOut Options.default scopeFix1 { log_key := 0, name := "dup" } subFix).1
      (by decide),
   (first_registration_wins ctxFix .Application none none envNone "svc" .Info
      .StdOut Options.default scopeFix1 { log_key := 0, name := "dup" } subFix).2
      (by decide) rfl (by decide)⟩

/-- C1: the resolver fallback order. A read (`CTX::call`) evaluates the
closure against the task-local context first; with no task-local context
installed, or when the task-local evaluation reports `KeyNotInitialized`,
the closure is re-evaluated against the global registry and that result
is returned; any other task-local error (e.g. a borrow conflict) and any
other closure error is returned unchanged, never replaced by the global
result; a task-local success is returned directly. `CTX::call_mut`
follows the identical fallback order, applying the closure to the
exclusively locked global state when falling through. -/
theorem resolver_fallback {R : Type} (f : Context → Except ErrorKind R)
    (g c : Context) (globalLock : Except ErrorKind Context) (r : R)
    (e : ErrorKind) (gres : Except ErrorKind R)
    (fm : Context → Except ErrorKind Unit × Context) :
    (CTX.call none (.ok g) f = f g)
    ∧ (f c = .error .KeyNotInitialized → CTX.call (some c) (.ok g) f = f g)
    ∧ (CTX.callDispatch (.error .BorrowError) gres
        = .error (ErrorKind.fromTaskLocal .BorrowError))
    ∧ (f c = .error e → e ≠ .KeyNotInitialized →
        CTX.call (some c) globalLock f = .error e)
    ∧ (f c = .ok r → CTX.call (some c) globalLock f = .ok r)
    ∧ (CTX.call_mut none (.ok g) fm = ((fm g).1, none, .ok (fm g).2))
    ∧ ((fm c).1 = .error .KeyNotInitialized →
        CTX.call_mut (some c) (.ok g) fm = ((fm g).1, some (fm c).2, .ok (fm g).2))
    ∧ ((fm c).1 = .error e → e ≠ .KeyNotInitialized →
        CTX.call_mut (some c) globalLock fm = (.error e, some (fm c).2, globalLock))
    ∧ ((fm c).1 = .ok () →
        CTX.call_mut (some c) globalLock fm = (.ok (), some (fm c).2, globalLock)) := by
  refine ⟨?_, fun h => ?_, ?_, fun h hne => ?_, fun h => ?_, ?_, fun h => ?_,
    fun h hne => ?_, fun h => ?_⟩
  · rfl
  · simp only [CTX.call, LocalKey.try_with, CTX.callDispatch, h]
    rfl
  · rfl
  · simp only [CTX.call, LocalKey.try_with, h]
    cases e with
    | KeyNotInitialized => exact absurd rfl hne
    | _ => rfl
  · simp [CTX.call, LocalKey.try_with, CTX.callDispatch, h]
  · simp [CTX.call_mut, LocalKey.try_with_mut]
  · simp only [CTX.call_mut, LocalKey.try_with_mut]
    rw [show (fm c).1 = Except.error ErrorKind.KeyNotInitialized from h]
  · simp only [CTX.call_mut, LocalKey.try_with_mut]
    rw [show (fm c).1 = Except.error e from h]
    cases e with
    | KeyNotInitialized => exact absurd rfl hne
    | _ => rfl
  · simp only [CTX.call_mut, LocalKey.try_with_mut]
    rw [show (fm c).1 = Except.ok () from h]

/-- Witness for C1: a task-local view whose scope lacks the requested
key falls through to the global registry; a task-local evaluation that
fails with a different error is returned unchanged; a task-local write
success does not touch the global state. -/
theorem resolver_fallback_witness :
    CTX.call (some ctxEmptyScope) (.ok ctxFix)
      (fun ctx => logInner ctx .Application 0 .Info)
      = logInner ctxFix .Application 0 .Info
    ∧ CTX.call (some ctxFix) (.ok Context.default)
      (fun _ => (.error .ParseArg : Except ErrorKind Nat)) = .error .ParseArg
    ∧ CTX.call_mut (some ctxFix) (.ok Context.default) (fun c => (.ok (), c))
      = (.ok (), some ctxFix, .ok Context.default) :=
  ⟨(resolver_fallback (fun ctx => logInner ctx .Application 0 .Info) ctxFix
      ctxEmptyScope (.ok ctxFix) .skipped .ParseArg (.ok .skipped)
      (fun c => (.ok (), c))).2.1 rfl,
   (resolver_fallback (fun _ => (.error .ParseArg : Except ErrorKind Nat))
      Context.default ctxFix (.ok Context.default) 0 .ParseArg (.ok 0)
      (fun c => (.ok (), c))).2.2.2.1 rfl (by decide),
   (resolver_fallback (fun _ => (.error .ParseArg : Except ErrorKind Nat))
      Context.default ctxFix (.ok Context.default) 0 .ParseArg (.ok 0)
      (fun c => (.ok (), c))).2.2.2.2.2.2.2.2 rfl⟩

/-- C9: given the resolved scope, `log` fails with `KeyNotInitialized`
when the scope has no submodule at the key; when the submodule exists
but `will_log` is false it returns success without dispatching; under
the same resolution `test_log` returns `Ok(false)` for an unresolved key
instead of an error, and `Ok(will_log)` otherwise. -/
theorem dispatcher_key_resolution (c : Context) (sk : ScopeKey) (k : Nat)
    (lvl : Level) (lm : LogScope) (m : Submodule) :
    (c.get_mod sk = .ok lm → lm.get_submodule k = none →
      logInner c sk k lvl = .error .KeyNotInitialized)
    ∧ (c.get_mod sk = .ok lm → lm.get_submodule k = some m →
        m.will_log lvl = false → logInner c sk k lvl = .ok .skipped)
    ∧ (c.get_mod sk = .ok lm → lm.get_submodule k = none →
        testLogInner c sk k lvl = .ok false)
    ∧ (c.get_mod sk = .ok lm → lm.get_submodule k = some m →
        testLogInner c sk k lvl = .ok (m.will_log lvl)) := by
  refine ⟨fun h1 h2 => ?_, fun h1 h2 h3 => ?_, fun h1 h2 => ?_, fun h1 h2 => ?_⟩
  · simp [logInner, h1, h2]
  · simp [logInner, h1, h2, h3]
  · simp [testLogInner, h1, h2]
  · simp [testLogInner, h1, h2]

/-- Witness for C9 on the fixture context: key 5 is unregistered
(`log` errors, `test_log` says false), key 0 at `Debug5` is below the
`Info` threshold (`log` succeeds with no dispatch). -/
theorem dispatcher_key_resolution_witness :
    logInner ctxFix .Application 5 .Info = .error .KeyNotInitialized
    ∧ logInner ctxFix .Application 0 .Debug5 = .ok .skipped
    ∧ testLogInner ctxFix .Application 5 .Info = .ok false :=
  ⟨(dispatcher_key_resolution ctxFix .Application 5 .Info scopeFix1 subFix).1
      rfl rfl,
   (dispatcher_key_resolution ctxFix .Application 0 .Debug5 scopeFix1 subFix).2.1
      rfl rfl (by decide),
   (dispatcher_key_resolution ctxFix .Application 5 .Info scopeFix1 subFix).2.2.1
      rfl rfl⟩

/-- Each `scope_inner` call restores the thread-local slot on guard drop,
whatever the closure does while the override is visible. -/
lemma scopeInner_restores {T A : Type} (slot tls : Option T)
    (f : Option T → A × Option T) : (scopeInner slot tls f).2.2 = tls := rfl

/-- A single poll of the override future leaves the thread-local slot as
it was between polls. -/
lemma poll_restores_tls {T F R : Type} (tlf : TaskLocalFuture T F)
    (tls : Option T) (pollF : F → Option T → P F R × Option T) :
    (tlf.poll tls pollF).2.2 = tls := by
  cases hf : tlf.future with
  | none => simp [TaskLocalFuture.poll, hf]
  | some fut => simp [TaskLocalFuture.poll, hf, scopeInner]

/-- Dropping the override future — mid-execution or after completion —
leaves the thread-local slot as it was before the drop. -/
lemma dropTlf_restores_tls {T F : Type} (tlf : TaskLocalFuture T F)
    (tls : Option T) (dropF : F → Option T → Option T) :
    (tlf.dropTlf tls dropF).2 = tls := by
  cases hf : tlf.future with
  | none => simp [TaskLocalFuture.dropTlf, hf]
  | some fut => simp [TaskLocalFuture.dropTlf, hf, scopeInner]

/-- Any number of polls preserves the thread-local slot. -/
lemma pollN_preserves_tls {T F R : Type}
    (pollF : F → Option T → P F R × Option T) (n : Nat)
    (tlf : TaskLocalFuture T F) (tls : Option T) :
    (pollN pollF n (tlf, tls)).2 = tls := by
  induction n generalizing tlf tls with
  | zero => rfl
  | succ n ih =>
    simp only [pollN]
    rw [ih, poll_restores_tls]

/-- C6: teardown of a scoped task-local override runs exactly once and
restores the slot to its pre-arming value. Each poll swaps the override
in and back out; after any number of polls the slot holds its pre-arming
value, and dropping the override there — the cancellation path — still
restores it. A poll that completes the wrapped future clears it, so the
eventual drop performs no second teardown; dropping mid-execution
performs exactly one. The restoration holds for arbitrary behaviour of
the wrapped future, which is what supports nested overrides. -/
theorem scoped_override_teardown {T F R : Type}
    (pollF : F → Option T → P F R × Option T)
    (dropF : F → Option T → Option T) (value : T) (fut : F)
    (tls tls0 tls' : Option T) (n : Nat) (tlf tlf' : TaskLocalFuture T F)
    (r : R) :
    ((tlf.poll tls0 pollF).2.2 = tls0)
    ∧ ((tlf.dropTlf tls0 dropF).2 = tls0)
    ∧ ((pollN pollF n (LocalKey.scope value fut, tls)).2 = tls)
    ∧ (((pollN pollF n (LocalKey.scope value fut, tls)).1.dropTlf
        (pollN pollF n (LocalKey.scope value fut, tls)).2 dropF).2 = tls)
    ∧ (tlf.poll tls0 pollF = (some (.ready r), tlf', tls') →
        tlf'.future = none ∧ tlf'.teardownsInDrop = 0)
    ∧ ((LocalKey.scope value fut).teardownsInDrop = 1)
    ∧ (tlf.future = none → tlf.teardownsInDrop = 0) := by
  refine ⟨poll_restores_tls tlf tls0 pollF, dropTlf_restores_tls tlf tls0 dropF,
    pollN_preserves_tls pollF n _ tls, ?_, fun h => ?_, rfl, fun h => ?_⟩
  · rw [dropTlf_restores_tls, pollN_preserves_tls]
  · cases hf : tlf.future with
    | none =>
      rw [TaskLocalFuture.poll] at h
      simp only [hf] at h
      exact absurd (congrArg Prod.fst h) (by simp)
    | some fut2 =>
      rw [TaskLocalFuture.poll] at h
      simp only [hf, scopeInner] at h
      rcases hp : pollF fut2 tlf.slot with ⟨p, t⟩
      cases p with
      | ready r0 =>
        rw [hp] at h
        simp only at h
        have h2 := congrArg (fun q : Option (P F R) × TaskLocalFuture T F × Option T
          => q.2.1) h
        simp only at h2
        rw [← h2]
        exact ⟨rfl, rfl⟩
      | pending f2 =>
        rw [hp] at h
        simp only at h
        have h1 := congrArg (fun q : Option (P F R) × TaskLocalFuture T F × Option T
          => q.1) h
        simp at h1
  · simp [TaskLocalFuture.teardownsInDrop, h]

/-- Witness for C6: a one-shot future armed with value 1; a completing
poll restores the slot and clears the future (no second teardown), a
mid-execution drop restores the slot and is the single teardown. -/
theorem scoped_override_teardown_witness :
    ((LocalKey.scope 1 2).poll (some 0) pollReady).2.2 = some 0
    ∧ ((LocalKey.scope 1 2).dropTlf (some 0) dropId).2 = some 0
    ∧ ((LocalKey.scope 1 2).poll (some 0) pollReady).2.1.future = none
    ∧ ((LocalKey.scope 1 2).poll (some 0) pollReady).2.1.teardownsInDrop = 0
    ∧ (LocalKey.scope (1 : Nat) (2 : Nat)).teardownsInDrop = 1 := by
  have h := scoped_override_teardown pollReady dropId 1 2 (some 0) (some 0)
    ((LocalKey.scope 1 2).poll (some 0) pollReady).2.2 0 (LocalKey.scope 1 2)
    ((LocalKey.scope 1 2).poll (some 0) pollReady).2.1 2
  have hready := h.2.2.2.2.1 rfl
  exact ⟨h.1, h.2.1, hready.1, hready.2, h.2.2.2.2.2.1⟩

/-- Evaluating the concrete segment `"A:debug9"`: parse succeeds, the
key is specific, so the named submodule (if any) is set to `Debug9`. -/
lemma setModLevelArg_A_debug9 (c : Context) :
    setModLevelArg c "A:debug9" =
      (match c.findSubmodLoc "A" with
       | none => .error .KeyNotInitialized
       | some (sk, i) => .ok (c.modifySubmod sk i (fun m => m.set_logsev .Debug9))) := rfl

/-- Evaluating the concrete segment `"_all:debug10"`: the wildcard sets
every submodule of every scope to `Debug10`. -/
lemma setModLevelArg_all_debug10 (c : Context) :
    setModLevelArg c "_all:debug10" = .ok (c.setAllLevels .Debug10) := rfl

/-- After the wildcard update every submodule of every scope carries the
written level. -/
lemma setAllLevels_logsev (c : Context) (l : Level) (sk : ScopeKey)
    (m : Submodule) (hm : m ∈ ((c.setAllLevels l).get sk).submodules) :
    m.logsev = l := by
  cases sk <;>
    · simp only [Context.setAllLevels, Context.get, List.mem_map] at hm
      obtain ⟨m0, _, rfl⟩ := hm
      rfl

/-- C8: `set_mod_level` applies its `key:level` segments strictly in call
and argument order; after `set_mod_level(["A:warn", "_all:info"])`
followed by `set_mod_level(["A:debug9", "_all:debug10"])`, key `A` and
every other registered key of every scope sit at `Debug10` — the later
wildcard overwrites the earlier specific-key update. -/
theorem set_mod_level_last_wildcard_wins (c c1 c2 : Context)
    (h1 : set_mod_level ["A:warn", "_all:info"] c = (.ok (), c1))
    (h2 : set_mod_level ["A:debug9", "_all:debug10"] c1 = (.ok (), c2)) :
    ∀ sk : ScopeKey, ∀ m ∈ (c2.get sk).submodules, m.logsev = .Debug10 := by
  unfold set_mod_level at h2
  rw [show (["A:debug9", "_all:debug10"].flatMap strSplitComma)
      = ["A:debug9", "_all:debug10"] from rfl] at h2
  simp only [setModLevelGo] at h2
  rw [setModLevelArg_A_debug9] at h2
  cases hloc : c1.findSubmodLoc "A" with
  | none =>
    rw [hloc] at h2
    simp at h2
  | some loc =>
    obtain ⟨sk0, i0⟩ := loc
    rw [hloc] at h2
    simp only [setModLevelArg_all_debug10] at h2
    have hc2 : (c1.modifySubmod sk0 i0
        (fun m => m.set_logsev .Debug9)).setAllLevels .Debug10 = c2 :=
      congrArg Prod.snd h2
    intro sk m hm
    rw [← hc2] at hm
    exact setAllLevels_logsev _ _ _ _ hm

/-- Witness for C8: running the two batches on the fixture context with
key `A` leaves `A` at `Debug10`. -/
theorem set_mod_level_last_wildcard_wins_witness :
    ((ctxA2.get .Application).submodules.headD Submodule.default).logsev
      = .Debug10 :=
  set_mod_level_last_wildcard_wins ctxA ctxA1 ctxA2 rfl rfl .Application _
    (by decide)

end Hclog
